import Mathlib

/-
Shallow embedding of the MoneyTracker persistent schema
(src/moneytracker/models.py) and of the relational semantics its
declarations induce: each Django model becomes a row structure, the
database becomes a record of row lists, and every declared constraint
(uniqueness, foreign keys, max_length, decimal precision, choices,
defaults, auto_now, on_delete=CASCADE) becomes an explicit check or
transformation in the corresponding operation.

Dates and timestamps are abstracted as natural numbers (day ordinals);
fixed-point decimals such as DecimalField(max_digits=18,
decimal_places=8) are embedded as integers scaled by 10^decimal_places,
with the max_digits bound enforced as |q| < 10^max_digits.
-/

namespace MoneyTracker

/-- Row of table custom_users (model CustomUser): field suscribed with
default True and a one-to-one reference to the auth user. -/
structure CustomUser where
  id : Nat
  suscribed : Bool
  user : Nat
  deriving Repr, DecidableEq

/-- Row of table assets (model Asset): name (max_length 255), symbol
(max_length 10), type (max_length 50). -/
structure Asset where
  id : Nat
  name : String
  symbol : String
  type : String
  deriving Repr, DecidableEq

/-- Row of table portfolios (model Portfolio): foreign key to
CustomUser with on_delete=CASCADE. -/
structure Portfolio where
  id : Nat
  user : Nat
  deriving Repr, DecidableEq

/-- Row of table portfolios_assets (model PortfolioAsset): foreign keys
to Portfolio and Asset (both CASCADE), quantity as a fixed-point decimal
scaled by 10^8, and acquisition_date with auto_now=True. -/
structure PortfolioAsset where
  id : Nat
  portfolio : Nat
  asset : Nat
  quantity : Int
  acquisition_date : Nat
  deriving Repr, DecidableEq

/-- Row of table performances (model Performance): foreign key to
CustomUser (CASCADE), days_to_send_email and periodicity as choice
fields, last_time_sent defaulting to creation time. -/
structure Performance where
  id : Nat
  user : Nat
  days_to_send_email : String
  periodicity : String
  last_time_sent : Nat
  deriving Repr, DecidableEq

/-- Row of table daily_asset_info (model DailyAssetInfo): foreign key to
Asset (CASCADE), price and volume as decimals scaled by 10^2, timestamp
defaulting to creation time. -/
structure DailyAssetInfo where
  id : Nat
  asset : Nat
  price : Int
  volume : Int
  timestamp : Nat
  deriving Repr, DecidableEq

/-- The whole stored state: one list of rows per declared table. -/
structure DB where
  custom_users : List CustomUser
  assets : List Asset
  portfolios : List Portfolio
  portfolios_assets : List PortfolioAsset
  performances : List Performance
  daily_asset_info : List DailyAssetInfo
  deriving Repr, DecidableEq

/-- The constraint-violation errors surfaced synchronously at
persistence time. -/
inductive DBError where
  | uniquenessViolation (constraint : String)
  | foreignKeyViolation (table : String)
  | fieldValidation (field : String)
  deriving Repr, DecidableEq

/-- Performance.WEEKDAY_CHOICES from the source, in declaration order. -/
def WEEKDAY_CHOICES : List String :=
  ["Sunday", "Monday", "Tuesday", "Wednesday", "Thursday", "Friday", "Saturday"]

/-- Performance.PERIODICITY_CHOICES from the source. -/
def PERIODICITY_CHOICES : List String :=
  ["Daily", "Weekly", "Monthly", "Biweekly"]

/-- A scaled integer fits a DecimalField with the given max_digits. -/
def decimalFits (maxDigits : Nat) (q : Int) : Bool :=
  q.natAbs < 10 ^ maxDigits

/-- A string fits a CharField with the given max_length. -/
def charFits (maxLength : Nat) (s : String) : Bool :=
  s.length ≤ maxLength

/-- The declared default of CustomUser.suscribed. -/
def CustomUser.suscribed_default : Bool := true

/-- The declared default of Performance.days_to_send_email. -/
def Performance.days_to_send_email_default : String := "Monday"

/-- The declared default of Performance.periodicity. -/
def Performance.periodicity_default : String := "Weekly"

/-- The rational value denoted by a PortfolioAsset.quantity cell
(DecimalField with decimal_places=8). -/
def decimalVal (q : Int) : ℚ := (q : ℚ) / (10 ^ 8 : ℚ)

/-- Create a CustomUser with the declared default for suscribed; the
one-to-one field is unique. -/
def createCustomUser (db : DB) (newId userId : Nat) : Except DBError DB :=
  if db.custom_users.any (fun u => u.user == userId) then
    .error (.uniquenessViolation "custom_users_user_unique")
  else
    .ok { db with custom_users := db.custom_users ++
      [{ id := newId, suscribed := CustomUser.suscribed_default, user := userId }] }

/-- Persist an Asset row, enforcing the declared max_length of each
CharField. -/
def insertAsset (db : DB) (newId : Nat) (name symbol ty : String) :
    Except DBError DB :=
  if ¬ charFits 255 name then .error (.fieldValidation "name")
  else if ¬ charFits 10 symbol then .error (.fieldValidation "symbol")
  else if ¬ charFits 50 ty then .error (.fieldValidation "type")
  else .ok { db with assets := db.assets ++
    [{ id := newId, name := name, symbol := symbol, type := ty }] }

/-- Create a Portfolio referencing an existing CustomUser. -/
def createPortfolio (db : DB) (newId userId : Nat) : Except DBError DB :=
  if db.custom_users.all (fun u => u.id != userId) then
    .error (.foreignKeyViolation "custom_users")
  else
    .ok { db with portfolios := db.portfolios ++ [{ id := newId, user := userId }] }

/-- Insert a PortfolioAsset row: the UniqueConstraint
unique_portfolio_asset on (portfolio, asset), both foreign keys, the
decimal bound of quantity, and auto_now on acquisition_date (the field
is set to the save date, here the insert). -/
def insertPortfolioAsset (db : DB) (newId p a : Nat) (q : Int) (today : Nat) :
    Except DBError DB :=
  if db.portfolios_assets.any (fun pa => pa.portfolio == p && pa.asset == a) then
    .error (.uniquenessViolation "unique_portfolio_asset")
  else if db.portfolios.all (fun r => r.id != p) then
    .error (.foreignKeyViolation "portfolios")
  else if db.assets.all (fun r => r.id != a) then
    .error (.foreignKeyViolation "assets")
  else if ¬ decimalFits 18 q then
    .error (.fieldValidation "quantity")
  else
    .ok { db with portfolios_assets := db.portfolios_assets ++
      [{ id := newId, portfolio := p, asset := a, quantity := q,
         acquisition_date := today }] }

/-- Save an updated quantity on an existing PortfolioAsset row: because
acquisition_date has auto_now=True, the save also overwrites
acquisition_date with the save date. -/
def savePortfolioAssetQuantity (db : DB) (paid : Nat) (q : Int) (today : Nat) :
    Except DBError DB :=
  if ¬ decimalFits 18 q then .error (.fieldValidation "quantity")
  else .ok { db with portfolios_assets :=
    db.portfolios_assets.map (fun pa =>
      if pa.id == paid then { pa with quantity := q, acquisition_date := today }
      else pa) }

/-- Insert a Performance row: the UniqueConstraint unique_performance on
(user, days_to_send_email), the foreign key, and the declared choices of
both choice fields. -/
def insertPerformance (db : DB) (newId userId : Nat) (days per : String)
    (now : Nat) : Except DBError DB :=
  if db.performances.any
      (fun r => r.user == userId && r.days_to_send_email == days) then
    .error (.uniquenessViolation "unique_performance")
  else if db.custom_users.all (fun u => u.id != userId) then
    .error (.foreignKeyViolation "custom_users")
  else if ¬ WEEKDAY_CHOICES.contains days then
    .error (.fieldValidation "days_to_send_email")
  else if ¬ PERIODICITY_CHOICES.contains per then
    .error (.fieldValidation "periodicity")
  else
    .ok { db with performances := db.performances ++
      [{ id := newId, user := userId, days_to_send_email := days,
         periodicity := per, last_time_sent := now }] }

/-- Create a Performance row supplying no explicit values: the declared
defaults are used and last_time_sent is the creation date. -/
def createDefaultPerformance (db : DB) (newId userId now : Nat) :
    Except DBError DB :=
  insertPerformance db newId userId Performance.days_to_send_email_default
    Performance.periodicity_default now

/-- Insert a DailyAssetInfo row referencing an existing Asset. -/
def insertDailyAssetInfo (db : DB) (newId aid : Nat) (price volume : Int)
    (ts : Nat) : Except DBError DB :=
  if db.assets.all (fun r => r.id != aid) then
    .error (.foreignKeyViolation "assets")
  else if ¬ decimalFits 18 price then .error (.fieldValidation "price")
  else if ¬ decimalFits 18 volume then .error (.fieldValidation "volume")
  else
    .ok { db with daily_asset_info := db.daily_asset_info ++
      [{ id := newId, asset := aid, price := price, volume := volume,
         timestamp := ts }] }

/-- Delete a CustomUser row: on_delete=CASCADE removes its Portfolio and
Performance rows, and transitively the PortfolioAsset rows of the
removed portfolios. -/
def deleteCustomUser (db : DB) (uid : Nat) : DB :=
  let deadPortfolios :=
    (db.portfolios.filter (fun p => p.user == uid)).map (fun p => p.id)
  { db with
    custom_users := db.custom_users.filter (fun u => u.id != uid),
    portfolios := db.portfolios.filter (fun p => p.user != uid),
    performances := db.performances.filter (fun r => r.user != uid),
    portfolios_assets := db.portfolios_assets.filter
      (fun pa => !(deadPortfolios.contains pa.portfolio)) }

/-- Delete a Portfolio row: CASCADE removes its PortfolioAsset rows. -/
def deletePortfolio (db : DB) (pid : Nat) : DB :=
  { db with
    portfolios := db.portfolios.filter (fun p => p.id != pid),
    portfolios_assets := db.portfolios_assets.filter
      (fun pa => pa.portfolio != pid) }

/-- Delete an Asset row: CASCADE removes its PortfolioAsset and
DailyAssetInfo rows. -/
def deleteAsset (db : DB) (aid : Nat) : DB :=
  { db with
    assets := db.assets.filter (fun a => a.id != aid),
    portfolios_assets := db.portfolios_assets.filter
      (fun pa => pa.asset != aid),
    daily_asset_info := db.daily_asset_info.filter
      (fun d => d.asset != aid) }

/-- Delete a single PortfolioAsset row: no table references it, so
nothing cascades. -/
def deletePortfolioAsset (db : DB) (paid : Nat) : DB :=
  { db with portfolios_assets :=
      db.portfolios_assets.filter (fun pa => pa.id != paid) }

/-- Delete a single DailyAssetInfo row: no table references it, so
nothing cascades. -/
def deleteDailyAssetInfo (db : DB) (did : Nat) : DB :=
  { db with daily_asset_info :=
      db.daily_asset_info.filter (fun d => d.id != did) }

/-- Referential integrity of a stored state: every foreign-key cell
points at an existing parent row. -/
def DB.integral (db : DB) : Prop :=
  (∀ p ∈ db.portfolios, ∃ u ∈ db.custom_users, u.id = p.user) ∧
  (∀ r ∈ db.performances, ∃ u ∈ db.custom_users, u.id = r.user) ∧
  (∀ pa ∈ db.portfolios_assets,
    (∃ p ∈ db.portfolios, p.id = pa.portfolio) ∧
    (∃ a ∈ db.assets, a.id = pa.asset)) ∧
  (∀ d ∈ db.daily_asset_info, ∃ a ∈ db.assets, a.id = d.asset)

instance (db : DB) : Decidable db.integral := by
  unfold DB.integral
  infer_instance

/-- A concrete stored state used to instantiate the theorems: one user,
two assets, one portfolio holding 1.5 BTC (quantity scaled by 10^8), one
Monday/Weekly performance row, one daily price observation. -/
def egDB : DB where
  custom_users := [⟨1, true, 1⟩]
  assets := [⟨1, "Bitcoin", "BTC", "crypto"⟩, ⟨2, "Ethereum", "ETH", "crypto"⟩]
  portfolios := [⟨1, 1⟩]
  portfolios_assets := [⟨1, 1, 1, 150000000, 10⟩]
  performances := [⟨1, 1, "Monday", "Weekly", 10⟩]
  daily_asset_info := [⟨1, 1, 500000000000, 0, 10⟩]

/-- A second stored state with two users and no holdings, whose second
user has no Performance row yet. -/
def egDB2 : DB where
  custom_users := [⟨1, true, 1⟩, ⟨2, true, 2⟩]
  assets := [⟨1, "Bitcoin", "BTC", "crypto"⟩]
  portfolios := [⟨1, 1⟩, ⟨2, 2⟩]
  portfolios_assets := []
  performances := [⟨1, 1, "Monday", "Weekly", 10⟩]
  daily_asset_info := []

/-- C1: no two PortfolioAsset rows share a (portfolio, asset) pair.
Inserting a holding whose (portfolio, asset) pair matches an existing
row fails with the unique_portfolio_asset uniqueness violation and
leaves the stored rows unchanged; inserting with a fresh pair (under the
foreign-key and decimal constraints) succeeds and appends the row. -/
theorem c1_unique_portfolio_asset (db : DB) (newId p a : Nat) (q : Int)
    (today : Nat) :
    ((∃ pa ∈ db.portfolios_assets, pa.portfolio = p ∧ pa.asset = a) →
      insertPortfolioAsset db newId p a q today
        = .error (.uniquenessViolation "unique_portfolio_asset") ∧
      (insertPortfolioAsset db newId p a q today).toOption.getD db = db) ∧
    ((∀ pa ∈ db.portfolios_assets, ¬(pa.portfolio = p ∧ pa.asset = a)) →
      (∃ r ∈ db.portfolios, r.id = p) →
      (∃ r ∈ db.assets, r.id = a) →
      decimalFits 18 q = true →
      insertPortfolioAsset db newId p a q today
        = .ok { db with portfolios_assets := db.portfolios_assets ++
            [{ id := newId, portfolio := p, asset := a, quantity := q,
               acquisition_date := today }] }) := by
  refine ⟨?_, ?_⟩
  · rintro ⟨pa, hmem, hp, ha⟩
    have hany : (db.portfolios_assets.any
        fun r => r.portfolio == p && r.asset == a) = true :=
      List.any_eq_true.mpr ⟨pa, hmem, by simp [hp, ha]⟩
    refine ⟨?_, ?_⟩ <;>
      simp [insertPortfolioAsset, hany, Except.toOption, Option.getD]
  · intro hfresh hp ha hq
    obtain ⟨rp, hrp, hrpid⟩ := hp
    obtain ⟨ra, hra, hraid⟩ := ha
    have hany : (db.portfolios_assets.any
        fun r => r.portfolio == p && r.asset == a) = false := by
      rw [List.any_eq_false]
      intro pa hmem hcontra
      rw [Bool.and_eq_true, beq_iff_eq, beq_iff_eq] at hcontra
      exact hfresh pa hmem hcontra
    have hallp : (db.portfolios.all fun r => r.id != p) = false := by
      rw [List.all_eq_false]
      exact ⟨rp, hrp, by simp [hrpid]⟩
    have halla : (db.assets.all fun r => r.id != a) = false := by
      rw [List.all_eq_false]
      exact ⟨ra, hra, by simp [hraid]⟩
    simp [insertPortfolioAsset, hany, hallp, halla, hq]

/-- Witness for C1 at the spec scenario: a second holding for the same
(portfolio, asset) pair is rejected; a holding of the second asset is
appended. -/
theorem c1_witness :
    insertPortfolioAsset egDB 2 1 1 200000000 11
      = .error (.uniquenessViolation "unique_portfolio_asset") ∧
    insertPortfolioAsset egDB 2 1 2 200000000 11
      = .ok { egDB with portfolios_assets := egDB.portfolios_assets ++
          [{ id := 2, portfolio := 1, asset := 2, quantity := 200000000,
             acquisition_date := 11 }] } :=
  ⟨((c1_unique_portfolio_asset egDB 2 1 1 200000000 11).1 (by decide)).1,
   (c1_unique_portfolio_asset egDB 2 1 2 200000000 11).2
     (by decide) (by decide) (by decide) (by decide)⟩

/-- C2: no two Performance rows share a (user, days_to_send_email)
pair. Creating a row duplicating an existing (user, weekday) pair fails
with the unique_performance uniqueness violation; a fresh weekday for
the same user (under the foreign-key and choices constraints) is
appended. -/
theorem c2_unique_performance_pair (db : DB) (newId userId : Nat)
    (days per : String) (now : Nat) :
    ((∃ r ∈ db.performances, r.user = userId ∧ r.days_to_send_email = days) →
      insertPerformance db newId userId days per now
        = .error (.uniquenessViolation "unique_performance")) ∧
    ((∀ r ∈ db.performances, ¬(r.user = userId ∧ r.days_to_send_email = days)) →
      (∃ u ∈ db.custom_users, u.id = userId) →
      days ∈ WEEKDAY_CHOICES → per ∈ PERIODICITY_CHOICES →
      insertPerformance db newId userId days per now
        = .ok { db with performances := db.performances ++
            [{ id := newId, user := userId, days_to_send_email := days,
               periodicity := per, last_time_sent := now }] }) := by
  constructor
  · rintro ⟨r, hmem, hu, hd⟩
    have hany : (db.performances.any
        fun r => r.user == userId && r.days_to_send_email == days) = true :=
      List.any_eq_true.mpr ⟨r, hmem, by simp [hu, hd]⟩
    simp [insertPerformance, hany]
  · intro hfresh hu hdays hper
    obtain ⟨u, humem, huid⟩ := hu
    have hany : (db.performances.any
        fun r => r.user == userId && r.days_to_send_email == days) = false := by
      rw [List.any_eq_false]
      intro r hmem hcontra
      rw [Bool.and_eq_true, beq_iff_eq, beq_iff_eq] at hcontra
      exact hfresh r hmem hcontra
    have hall : (db.custom_users.all fun r => r.id != userId) = false := by
      rw [List.all_eq_false]
      exact ⟨u, humem, by simp [huid]⟩
    simp [insertPerformance, hany, hall, hdays, hper]

/-- Witness for C2 at the spec scenario: user 1 already has a Monday
row, so a second Monday row is rejected while a Tuesday row is
appended. -/
theorem c2_witness :
    insertPerformance egDB 2 1 "Monday" "Weekly" 12
      = .error (.uniquenessViolation "unique_performance") ∧
    insertPerformance egDB 2 1 "Tuesday" "Weekly" 12
      = .ok { egDB with performances := egDB.performances ++
          [{ id := 2, user := 1, days_to_send_email := "Tuesday",
             periodicity := "Weekly", last_time_sent := 12 }] } :=
  ⟨(c2_unique_performance_pair egDB 2 1 "Monday" "Weekly" 12).1 (by decide),
   (c2_unique_performance_pair egDB 2 1 "Tuesday" "Weekly" 12).2
     (by decide) (by decide) (by decide) (by decide)⟩

/-- C6: a CustomUser created without supplying a subscription value has
its suscribed flag equal to true (the declared default). -/
theorem c6_suscribed_defaults_true (db : DB) (newId userId : Nat)
    (h : ∀ u ∈ db.custom_users, u.user ≠ userId) :
    createCustomUser db newId userId
      = .ok { db with custom_users := db.custom_users ++
          [{ id := newId, suscribed := true, user := userId }] } := by
  have hany : (db.custom_users.any fun u => u.user == userId) = false := by
    rw [List.any_eq_false]
    intro u hu hc
    exact h u hu (beq_iff_eq.mp hc)
  simp [createCustomUser, hany, CustomUser.suscribed_default]

/-- Witness for C6: creating a profile for a fresh auth user yields a
row with suscribed = true. -/
theorem c6_witness :
    createCustomUser egDB 2 2
      = .ok { egDB with custom_users := egDB.custom_users ++
          [{ id := 2, suscribed := true, user := 2 }] } :=
  c6_suscribed_defaults_true egDB 2 2 (by decide)

/-- C8: persisting an Asset whose symbol has at most 10 characters
succeeds (given valid name and type), and persisting one whose symbol
exceeds 10 characters fails with a max-length field validation on
symbol. -/
theorem c8_asset_symbol_max_length (db : DB) (newId : Nat)
    (name symbol ty : String)
    (hname : name.length ≤ 255) (hty : ty.length ≤ 50) :
    (symbol.length ≤ 10 →
      insertAsset db newId name symbol ty
        = .ok { db with assets := db.assets ++
            [{ id := newId, name := name, symbol := symbol, type := ty }] }) ∧
    (10 < symbol.length →
      insertAsset db newId name symbol ty = .error (.fieldValidation "symbol")) := by
  constructor
  · intro hs
    simp [insertAsset, charFits, hname, hty, hs]
  · intro hs
    simp [insertAsset, charFits, hname, Nat.not_le.mpr hs]

/-- Witness for C8: a 3-character symbol is accepted, an 11-character
symbol is rejected with a symbol field validation. -/
theorem c8_witness :
    insertAsset egDB 3 "Bitcoin" "BTC" "crypto"
      = .ok { egDB with assets := egDB.assets ++
          [{ id := 3, name := "Bitcoin", symbol := "BTC", type := "crypto" }] } ∧
    insertAsset egDB 3 "Bitcoin" "ABCDEFGHIJK" "crypto"
      = .error (.fieldValidation "symbol") :=
  ⟨(c8_asset_symbol_max_length egDB 3 "Bitcoin" "BTC" "crypto"
      (by decide) (by decide)).1 (by decide),
   (c8_asset_symbol_max_length egDB 3 "Bitcoin" "ABCDEFGHIJK" "crypto"
      (by decide) (by decide)).2 (by decide)⟩

/-- C10: the schema puts no sign or lower bound on quantity. Any scaled
integer within the 18-digit decimal bound, including zero and negative
values, is accepted when the (portfolio, asset) pair is fresh and both
foreign keys resolve. -/
theorem c10_quantity_unrestricted_sign (db : DB) (newId p a today : Nat)
    (q : Int) (hq : q.natAbs < 10 ^ 18)
    (hfresh : ∀ pa ∈ db.portfolios_assets, ¬(pa.portfolio = p ∧ pa.asset = a))
    (hp : ∃ r ∈ db.portfolios, r.id = p) (ha : ∃ r ∈ db.assets, r.id = a) :
    insertPortfolioAsset db newId p a q today
      = .ok { db with portfolios_assets := db.portfolios_assets ++
          [{ id := newId, portfolio := p, asset := a, quantity := q,
             acquisition_date := today }] } := by
  obtain ⟨rp, hrp, hrpid⟩ := hp
  obtain ⟨ra, hra, hraid⟩ := ha
  have hany : (db.portfolios_assets.any
      fun r => r.portfolio == p && r.asset == a) = false := by
    rw [List.any_eq_false]
    intro pa hmem hcontra
    rw [Bool.and_eq_true, beq_iff_eq, beq_iff_eq] at hcontra
    exact hfresh pa hmem hcontra
  have hallp : (db.portfolios.all fun r => r.id != p) = false := by
    rw [List.all_eq_false]
    exact ⟨rp, hrp, by simp [hrpid]⟩
  have halla : (db.assets.all fun r => r.id != a) = false := by
    rw [List.all_eq_false]
    exact ⟨ra, hra, by simp [hraid]⟩
  simp [insertPortfolioAsset, hany, hallp, halla, decimalFits]
  simpa using hq

/-- Witness for C10: a negative quantity and a zero quantity are both
accepted for a fresh (portfolio, asset) pair. -/
theorem c10_witness :
    insertPortfolioAsset egDB 2 1 2 (-5) 11
      = .ok { egDB with portfolios_assets := egDB.portfolios_assets ++
          [{ id := 2, portfolio := 1, asset := 2, quantity := -5,
             acquisition_date := 11 }] } ∧
    insertPortfolioAsset egDB 3 1 2 0 11
      = .ok { egDB with portfolios_assets := egDB.portfolios_assets ++
          [{ id := 3, portfolio := 1, asset := 2, quantity := 0,
             acquisition_date := 11 }] } :=
  ⟨c10_quantity_unrestricted_sign egDB 2 1 2 11 (-5)
     (by decide) (by decide) (by decide) (by decide),
   c10_quantity_unrestricted_sign egDB 3 1 2 11 0
     (by decide) (by decide) (by decide) (by decide)⟩

/-- C4: acquisition_date carries auto_now=True, so every save sets it to
the save date: a successful insert appends a row whose acquisition_date
is the insert date, and a successful quantity update rewrites every row
with the saved id so that its acquisition_date is the update date,
regardless of the previous value. -/
theorem c4_acquisition_date_auto_now (db : DB) (newId p a paid : Nat)
    (q q2 : Int) (d1 d2 : Nat) :
    (∀ db2, insertPortfolioAsset db newId p a q d1 = .ok db2 →
      ∃ r, db2.portfolios_assets = db.portfolios_assets ++ [r] ∧
        r.acquisition_date = d1) ∧
    (∀ db3, savePortfolioAssetQuantity db paid q2 d2 = .ok db3 →
      ∀ pa2 ∈ db3.portfolios_assets, pa2.id = paid →
        pa2.acquisition_date = d2) := by
  constructor
  · intro db2 h
    rw [insertPortfolioAsset] at h
    split at h
    · simp at h
    · split at h
      · simp at h
      · split at h
        · simp at h
        · split at h
          · simp at h
          · rw [Except.ok.injEq] at h
            subst h
            exact ⟨_, rfl, rfl⟩
  · intro db3 h pa2 hmem hid
    rw [savePortfolioAssetQuantity] at h
    split at h
    · simp at h
    · rw [Except.ok.injEq] at h
      subst h
      simp only [List.mem_map] at hmem
      obtain ⟨pa0, hpa0, heq⟩ := hmem
      by_cases hc : pa0.id = paid
      · simp [hc] at heq
        subst heq
        rfl
      · simp [hc] at heq
        subst heq
        exact absurd hid hc

/-- Witness for C4: saving a new quantity on the holding whose
acquisition_date was 10 rewrites the acquisition_date to the save date
42. -/
theorem c4_witness :
    savePortfolioAssetQuantity egDB 1 200000000 42
      = .ok { egDB with portfolios_assets := [⟨1, 1, 1, 200000000, 42⟩] } ∧
    (⟨1, 1, 1, 200000000, 42⟩ : PortfolioAsset).acquisition_date = 42 :=
  ⟨rfl,
   (c4_acquisition_date_auto_now egDB 2 1 2 1 1 200000000 11 42).2
     { egDB with portfolios_assets := [⟨1, 1, 1, 200000000, 42⟩] } rfl
     ⟨1, 1, 1, 200000000, 42⟩ (by decide) rfl⟩

/-- C5: quantity is an exact fixed-point decimal. Every value q/10^8
with |q| < 10^18 is stored verbatim and reads back as exactly the same
rational value; the stored representation is injective, so distinct
representable decimals never collapse. -/
theorem c5_quantity_exact_roundtrip (db : DB) (newId p a today : Nat)
    (q q1 q2 : Int) (v : ℚ)
    (hv : v = decimalVal q) (hq : q.natAbs < 10 ^ 18)
    (hfresh : ∀ pa ∈ db.portfolios_assets, ¬(pa.portfolio = p ∧ pa.asset = a))
    (hp : ∃ r ∈ db.portfolios, r.id = p) (ha : ∃ r ∈ db.assets, r.id = a)
    (h12 : decimalVal q1 = decimalVal q2) :
    insertPortfolioAsset db newId p a q today
      = .ok { db with portfolios_assets := db.portfolios_assets ++
          [{ id := newId, portfolio := p, asset := a, quantity := q,
             acquisition_date := today }] } ∧
    decimalVal q = v ∧ q1 = q2 := by
  refine ⟨?_, hv.symm, ?_⟩
  · obtain ⟨rp, hrp, hrpid⟩ := hp
    obtain ⟨ra, hra, hraid⟩ := ha
    have hany : (db.portfolios_assets.any
        fun r => r.portfolio == p && r.asset == a) = false := by
      rw [List.any_eq_false]
      intro pa hmem hcontra
      rw [Bool.and_eq_true, beq_iff_eq, beq_iff_eq] at hcontra
      exact hfresh pa hmem hcontra
    have hallp : (db.portfolios.all fun r => r.id != p) = false := by
      rw [List.all_eq_false]
      exact ⟨rp, hrp, by simp [hrpid]⟩
    have halla : (db.assets.all fun r => r.id != a) = false := by
      rw [List.all_eq_false]
      exact ⟨ra, hra, by simp [hraid]⟩
    simp [insertPortfolioAsset, hany, hallp, halla, decimalFits]
    simpa using hq
  · rw [decimalVal, decimalVal] at h12
    field_simp at h12
    exact_mod_cast h12

/-- Witness for C5: 0.00000001 is stored as the scaled integer 1 and
reads back as exactly 1/100000000. -/
theorem c5_witness :
    insertPortfolioAsset egDB 2 1 2 1 11
      = .ok { egDB with portfolios_assets := egDB.portfolios_assets ++
          [{ id := 2, portfolio := 1, asset := 2, quantity := 1,
             acquisition_date := 11 }] } ∧
    decimalVal 1 = 1 / 100000000 ∧ (5 : Int) = 5 :=
  c5_quantity_exact_roundtrip egDB 2 1 2 11 1 5 5 (1 / 100000000)
    (by rw [decimalVal]; norm_num) (by decide) (by decide) (by decide)
    (by decide) rfl

/-- C7: a Performance row created with no explicit values gets
days_to_send_email = "Monday", periodicity = "Weekly" and
last_time_sent equal to the creation date; the declared choices are
exactly the seven weekday names and exactly Daily, Weekly, Monthly,
Biweekly, and any successful insert stays within them. -/
theorem c7_performance_defaults (db : DB) (newId userId now : Nat)
    (hfresh : ∀ r ∈ db.performances,
      ¬(r.user = userId ∧ r.days_to_send_email = "Monday"))
    (hu : ∃ u ∈ db.custom_users, u.id = userId) :
    createDefaultPerformance db newId userId now
      = .ok { db with performances := db.performances ++
          [{ id := newId, user := userId, days_to_send_email := "Monday",
             periodicity := "Weekly", last_time_sent := now }] } ∧
    WEEKDAY_CHOICES = ["Sunday", "Monday", "Tuesday", "Wednesday",
      "Thursday", "Friday", "Saturday"] ∧
    PERIODICITY_CHOICES = ["Daily", "Weekly", "Monthly", "Biweekly"] ∧
    (∀ days per now2 db2,
      insertPerformance db newId userId days per now2 = .ok db2 →
      days ∈ WEEKDAY_CHOICES ∧ per ∈ PERIODICITY_CHOICES) := by
  refine ⟨?_, rfl, rfl, ?_⟩
  · obtain ⟨u, humem, huid⟩ := hu
    have hany : (db.performances.any
        fun r => r.user == userId && r.days_to_send_email == "Monday") = false := by
      rw [List.any_eq_false]
      intro r hmem hcontra
      rw [Bool.and_eq_true, beq_iff_eq, beq_iff_eq] at hcontra
      exact hfresh r hmem hcontra
    have hall : (db.custom_users.all fun r => r.id != userId) = false := by
      rw [List.all_eq_false]
      exact ⟨u, humem, by simp [huid]⟩
    simp [createDefaultPerformance, insertPerformance,
      Performance.days_to_send_email_default, Performance.periodicity_default,
      hany, hall, WEEKDAY_CHOICES, PERIODICITY_CHOICES]
  · intro days per now2 db2 hok
    rw [insertPerformance] at hok
    split at hok
    · simp at hok
    · split at hok
      · simp at hok
      · split at hok
        · simp at hok
        · split at hok
          · simp at hok
          · rename_i hdays hper
            rw [not_not] at hdays hper
            constructor
            · simpa using hdays
            · simpa using hper

/-- Witness for C7: the second user of egDB2, who has no Performance
row, gets the declared defaults and creation date 33. -/
theorem c7_witness :
    createDefaultPerformance egDB2 2 2 33
      = .ok { egDB2 with performances := egDB2.performances ++
          [{ id := 2, user := 2, days_to_send_email := "Monday",
             periodicity := "Weekly", last_time_sent := 33 }] } :=
  (c7_performance_defaults egDB2 2 2 33 (by decide) (by decide)).1

theorem mem_deleteCustomUser_custom_users (db : DB) (uid : Nat)
    (u : CustomUser) :
    u ∈ (deleteCustomUser db uid).custom_users ↔
      u ∈ db.custom_users ∧ u.id ≠ uid := by
  simp [deleteCustomUser, List.mem_filter]

theorem mem_deleteCustomUser_portfolios (db : DB) (uid : Nat)
    (p : Portfolio) :
    p ∈ (deleteCustomUser db uid).portfolios ↔
      p ∈ db.portfolios ∧ p.user ≠ uid := by
  simp [deleteCustomUser, List.mem_filter]

theorem mem_deleteCustomUser_performances (db : DB) (uid : Nat)
    (r : Performance) :
    r ∈ (deleteCustomUser db uid).performances ↔
      r ∈ db.performances ∧ r.user ≠ uid := by
  simp [deleteCustomUser, List.mem_filter]

theorem mem_deleteCustomUser_portfolios_assets (db : DB) (uid : Nat)
    (pa : PortfolioAsset) :
    pa ∈ (deleteCustomUser db uid).portfolios_assets ↔
      pa ∈ db.portfolios_assets ∧
      ¬ ∃ p ∈ db.portfolios, p.user = uid ∧ p.id = pa.portfolio := by
  simp [deleteCustomUser, List.mem_filter]

theorem mem_deletePortfolio_portfolios_assets (db : DB) (pid : Nat)
    (pa : PortfolioAsset) :
    pa ∈ (deletePortfolio db pid).portfolios_assets ↔
      pa ∈ db.portfolios_assets ∧ pa.portfolio ≠ pid := by
  simp [deletePortfolio, List.mem_filter]

theorem mem_deleteAsset_portfolios_assets (db : DB) (aid : Nat)
    (pa : PortfolioAsset) :
    pa ∈ (deleteAsset db aid).portfolios_assets ↔
      pa ∈ db.portfolios_assets ∧ pa.asset ≠ aid := by
  simp [deleteAsset, List.mem_filter]

theorem mem_deleteAsset_daily_asset_info (db : DB) (aid : Nat)
    (d : DailyAssetInfo) :
    d ∈ (deleteAsset db aid).daily_asset_info ↔
      d ∈ db.daily_asset_info ∧ d.asset ≠ aid := by
  simp [deleteAsset, List.mem_filter]

theorem deleteCustomUser_integral (db : DB) (uid : Nat) (h : db.integral) :
    (deleteCustomUser db uid).integral := by
  obtain ⟨h1, h2, h3, h4⟩ := h
  refine ⟨?_, ?_, ?_, ?_⟩
  · intro p hp
    rw [mem_deleteCustomUser_portfolios] at hp
    obtain ⟨hpmem, hpuser⟩ := hp
    obtain ⟨u, hu, huid⟩ := h1 p hpmem
    refine ⟨u, ?_, huid⟩
    rw [mem_deleteCustomUser_custom_users]
    exact ⟨hu, by rw [huid]; exact hpuser⟩
  · intro r hr
    rw [mem_deleteCustomUser_performances] at hr
    obtain ⟨hrmem, hruser⟩ := hr
    obtain ⟨u, hu, huid⟩ := h2 r hrmem
    refine ⟨u, ?_, huid⟩
    rw [mem_deleteCustomUser_custom_users]
    exact ⟨hu, by rw [huid]; exact hruser⟩
  · intro pa hpa
    rw [mem_deleteCustomUser_portfolios_assets] at hpa
    obtain ⟨hmem, hnone⟩ := hpa
    obtain ⟨⟨p, hpmem, hpid⟩, ⟨a, hamem, haid⟩⟩ := h3 pa hmem
    constructor
    · refine ⟨p, ?_, hpid⟩
      rw [mem_deleteCustomUser_portfolios]
      refine ⟨hpmem, fun hpu => hnone ⟨p, hpmem, hpu, hpid⟩⟩
    · exact ⟨a, hamem, haid⟩
  · intro d hd
    exact h4 d hd

theorem deletePortfolio_integral (db : DB) (pid : Nat) (h : db.integral) :
    (deletePortfolio db pid).integral := by
  obtain ⟨h1, h2, h3, h4⟩ := h
  refine ⟨?_, ?_, ?_, ?_⟩
  · intro p hp
    rw [show (deletePortfolio db pid).portfolios
      = db.portfolios.filter (fun p => p.id != pid) from rfl,
      List.mem_filter] at hp
    exact h1 p hp.1
  · intro r hr
    exact h2 r hr
  · intro pa hpa
    rw [mem_deletePortfolio_portfolios_assets] at hpa
    obtain ⟨hmem, hpid⟩ := hpa
    obtain ⟨⟨p, hpmem, hp⟩, ⟨a, hamem, haid⟩⟩ := h3 pa hmem
    constructor
    · refine ⟨p, ?_, hp⟩
      rw [show (deletePortfolio db pid).portfolios
        = db.portfolios.filter (fun p => p.id != pid) from rfl,
        List.mem_filter]
      exact ⟨hpmem, by simp [hp, hpid]⟩
    · exact ⟨a, hamem, haid⟩
  · intro d hd
    exact h4 d hd

theorem deleteAsset_integral (db : DB) (aid : Nat) (h : db.integral) :
    (deleteAsset db aid).integral := by
  obtain ⟨h1, h2, h3, h4⟩ := h
  refine ⟨?_, ?_, ?_, ?_⟩
  · intro p hp
    exact h1 p hp
  · intro r hr
    exact h2 r hr
  · intro pa hpa
    rw [mem_deleteAsset_portfolios_assets] at hpa
    obtain ⟨hmem, hasset⟩ := hpa
    obtain ⟨⟨p, hpmem, hp⟩, ⟨a, hamem, haid⟩⟩ := h3 pa hmem
    constructor
    · exact ⟨p, hpmem, hp⟩
    · refine ⟨a, ?_, haid⟩
      rw [show (deleteAsset db aid).assets
        = db.assets.filter (fun a => a.id != aid) from rfl,
        List.mem_filter]
      exact ⟨hamem, by simp [haid, hasset]⟩
  · intro d hd
    rw [mem_deleteAsset_daily_asset_info] at hd
    obtain ⟨hmem, hasset⟩ := hd
    obtain ⟨a, hamem, haid⟩ := h4 d hmem
    refine ⟨a, ?_, haid⟩
    rw [show (deleteAsset db aid).assets
      = db.assets.filter (fun a => a.id != aid) from rfl,
      List.mem_filter]
    exact ⟨hamem, by simp [haid, hasset]⟩

/-- C3: cascade delete is complete along every foreign-key edge.
Deleting a CustomUser removes exactly the Portfolio and Performance
rows referencing it, and transitively exactly the PortfolioAsset rows
of the removed portfolios; deleting a Portfolio removes exactly the
PortfolioAsset rows referencing it; deleting an Asset removes exactly
the PortfolioAsset and DailyAssetInfo rows referencing it. Each delete
preserves referential integrity, so no dependent row is left behind. -/
theorem c3_cascade_delete_complete (db : DB) (uid pid aid : Nat)
    (h : db.integral) :
    (deleteCustomUser db uid).integral ∧
    (deletePortfolio db pid).integral ∧
    (deleteAsset db aid).integral ∧
    (∀ p, p ∈ (deleteCustomUser db uid).portfolios ↔
      p ∈ db.portfolios ∧ p.user ≠ uid) ∧
    (∀ r, r ∈ (deleteCustomUser db uid).performances ↔
      r ∈ db.performances ∧ r.user ≠ uid) ∧
    (∀ pa, pa ∈ (deleteCustomUser db uid).portfolios_assets ↔
      pa ∈ db.portfolios_assets ∧
      ¬ ∃ p ∈ db.portfolios, p.user = uid ∧ p.id = pa.portfolio) ∧
    (∀ pa, pa ∈ (deletePortfolio db pid).portfolios_assets ↔
      pa ∈ db.portfolios_assets ∧ pa.portfolio ≠ pid) ∧
    (∀ pa, pa ∈ (deleteAsset db aid).portfolios_assets ↔
      pa ∈ db.portfolios_assets ∧ pa.asset ≠ aid) ∧
    (∀ d, d ∈ (deleteAsset db aid).daily_asset_info ↔
      d ∈ db.daily_asset_info ∧ d.asset ≠ aid) :=
  ⟨deleteCustomUser_integral db uid h,
   deletePortfolio_integral db pid h,
   deleteAsset_integral db aid h,
   mem_deleteCustomUser_portfolios db uid,
   mem_deleteCustomUser_performances db uid,
   mem_deleteCustomUser_portfolios_assets db uid,
   mem_deletePortfolio_portfolios_assets db pid,
   mem_deleteAsset_portfolios_assets db aid,
   mem_deleteAsset_daily_asset_info db aid⟩

/-- Witness for C3: on the concrete state each cascade delete yields a
referentially integral state. -/
theorem c3_witness :
    (deleteCustomUser egDB 1).integral ∧
    (deletePortfolio egDB 1).integral ∧
    (deleteAsset egDB 1).integral :=
  ⟨(c3_cascade_delete_complete egDB 1 1 1 (by decide)).1,
   (c3_cascade_delete_complete egDB 1 1 1 (by decide)).2.1,
   (c3_cascade_delete_complete egDB 1 1 1 (by decide)).2.2.1⟩

/-- C9: cascade deletion only flows from parent to child. Deleting an
Asset removes only the PortfolioAsset and DailyAssetInfo rows that
reference it and leaves every CustomUser, Portfolio and Performance row
unchanged; deleting a single PortfolioAsset or DailyAssetInfo row
removes only that row's table entry and leaves every other table
unchanged. -/
theorem c9_no_upward_cascade (db : DB) (aid paid did : Nat) :
    (deleteAsset db aid).custom_users = db.custom_users ∧
    (deleteAsset db aid).portfolios = db.portfolios ∧
    (deleteAsset db aid).performances = db.performances ∧
    (∀ pa, pa ∈ (deleteAsset db aid).portfolios_assets ↔
      pa ∈ db.portfolios_assets ∧ pa.asset ≠ aid) ∧
    (∀ d, d ∈ (deleteAsset db aid).daily_asset_info ↔
      d ∈ db.daily_asset_info ∧ d.asset ≠ aid) ∧
    (deletePortfolioAsset db paid).custom_users = db.custom_users ∧
    (deletePortfolioAsset db paid).assets = db.assets ∧
    (deletePortfolioAsset db paid).portfolios = db.portfolios ∧
    (deletePortfolioAsset db paid).performances = db.performances ∧
    (deletePortfolioAsset db paid).daily_asset_info = db.daily_asset_info ∧
    (deleteDailyAssetInfo db did).custom_users = db.custom_users ∧
    (deleteDailyAssetInfo db did).assets = db.assets ∧
    (deleteDailyAssetInfo db did).portfolios = db.portfolios ∧
    (deleteDailyAssetInfo db did).performances = db.performances ∧
    (deleteDailyAssetInfo db did).portfolios_assets = db.portfolios_assets :=
  ⟨rfl, rfl, rfl,
   mem_deleteAsset_portfolios_assets db aid,
   mem_deleteAsset_daily_asset_info db aid,
   rfl, rfl, rfl, rfl, rfl, rfl, rfl, rfl, rfl, rfl⟩

/-- Witness for C9: deleting asset 1 of the concrete state leaves the
user table unchanged. -/
theorem c9_witness :
    (deleteAsset egDB 1).custom_users = egDB.custom_users :=
  (c9_no_upward_cascade egDB 1 1 1).1

end MoneyTracker
